import Mathlib

/-!
Shallow embedding of the qb-api client (src/api.rs, src/traits.rs,
src/data.rs, src/queries.rs).  Every HTTP interaction is modelled as data:
each operation is split into the `Request` value it sends (method, path,
headers, form body) and a pure outcome/decode function applied to the
response the transport delivers.  Headers and form bodies are association
lists in insertion order; `HashMap` lookups are `List.lookup`-style finds.
-/

namespace QbApi

/-- The library's error enumeration.  Its declaring module (`src/error.rs`)
is not among the provided sources; the constructors below are exactly those
referenced from `api.rs` and `traits.rs` (`MissingHeaders`, `MissingCookie`,
`SliceError`, `BadResponse`), plus `HttpStatus`, modelled from the spec:
the HTTP-status failure "carrying the status code" that
`Error::from(reqwest::Error)` produces after `Response::error_for_status`. -/
inductive Error where
  | MissingHeaders
  | MissingCookie
  | SliceError
  | BadResponse
  | HttpStatus (code : Nat)
  deriving Repr, DecidableEq

/-- data.rs: `AlternateLimits`. -/
inductive AlternateLimits where
  | Enabled
  | Disabled
  deriving Repr, DecidableEq

/-- data.rs: `Hash` — a newtype over the identifier string. -/
structure Hash where
  hash : String
  deriving Repr, DecidableEq

/-- data.rs: the `State` lifecycle enumeration. -/
inductive State where
  | Error
  | MissingFiles
  | Uploading
  | StoppedUP
  | QueuedUP
  | StalledUP
  | CheckingUP
  | ForcedUP
  | Allocating
  | Downloading
  | MetaDL
  | StoppedDL
  | QueuedDL
  | StalledDL
  | CheckingDL
  | ForceDL
  | CheckingResumeData
  | Moving
  | Unknown
  deriving Repr, DecidableEq

/-- data.rs: the `Torrent` record (field for field; `f64` as `Float`,
unsigned/signed machine integers as `Nat`/`Int`). -/
structure Torrent where
  added_on : Nat
  amount_left : Nat
  auto_tmm : Bool
  category : String
  completed : Int
  completion_on : Int
  dl_limit : Int
  dlspeed : Int
  downloaded : Int
  downloaded_session : Int
  eta : Int
  f_l_piece_prio : Option Bool
  force_start : Bool
  hash : Hash
  last_activity : Int
  magnet_uri : String
  max_ratio : Float
  max_seeding_time : Int
  name : String
  num_complete : Int
  num_incomplete : Int
  num_leechs : Int
  num_seeds : Int
  priority : Int
  progress : Float
  ratio : Float
  ratio_limit : Float
  save_path : String
  seeding_time_limit : Int
  seen_complete : Int
  seq_dl : Bool
  size : Int
  state : State
  super_seeding : Bool
  tags : String
  time_active : Int
  total_size : Int
  tracker : String
  up_limit : Int
  uploaded : Int
  uploaded_session : Int
  upspeed : Int

/-- HTTP method used by an operation (`client.get` vs `client.post`). -/
inductive Method where
  | get
  | post
  deriving Repr, DecidableEq

/-- An outgoing HTTP request, as assembled by the client before `send()`:
the method, the endpoint path (`Api::endpoint` composes it onto the base
URL), the explicitly attached headers (`.headers(..)` — none when the
builder never calls it; reqwest adds no cookie of its own since the client
is built by `reqwest::Client::new()` without a cookie store), and the
form-encoded body (`.form(..)` — `none` when no form is attached). -/
structure Request where
  method : Method
  path : String
  headers : List (String × String)
  form : Option (List (String × String))
  deriving Repr, DecidableEq

/-- api.rs: the `Api` handle — the captured session cookie string and the
normalized base URL (the `reqwest::Client` carries no per-request state of
its own and is omitted). -/
structure Api where
  cookie : String
  url : String
  deriving Repr, DecidableEq

/-- api.rs `Api::headers`: the authentication header map, in insertion
order: `cookie` ↦ captured cookie, `Referer` ↦ base URL. -/
def Api.auth_headers (a : Api) : List (String × String) :=
  [("cookie", a.cookie), ("Referer", a.url)]

/-- `response.headers().get(name)`: the first header value stored under
`name` (reqwest returns the first value for a repeated header). -/
def getHeader (name : String) (headers : List (String × String)) : Option String :=
  (headers.find? (fun p => p.1 == name)).map (fun p => p.2)

/-- Rust `str::find(";")` restricted to this call site: the index of the
first `';'`.  (`';'` is ASCII, so the byte index Rust returns coincides
with the character index on well-formed UTF-8.) -/
def findSemi : List Char → Option Nat
  | [] => none
  | c :: cs => if c = ';' then some 0 else (findSemi cs).map (· + 1)

/-- api.rs `Api::new`, lines 44–59 — the cookie-capturing step applied to
the login response's headers: take the first `set-cookie` header
(`MissingHeaders` if absent), find the first `';'` in its value
(`MissingCookie` if absent), and keep the prefix strictly before it.
`cookie_str.get(0..index)` cannot fail for an index produced by `find`
(it is a character boundary), so the `SliceError` arm is unreachable. -/
def login_cookie (responseHeaders : List (String × String)) : Except Error String :=
  match getHeader "set-cookie" responseHeaders with
  | none => .error .MissingHeaders
  | some cookie_str =>
    match findSemi cookie_str.data with
    | none => .error .MissingCookie
    | some i => .ok (String.mk (cookie_str.data.take i))

/-- api.rs `Api::new`: the constructed handle, as a function of the
normalized base URL and the login response's headers. -/
def Api.new_from_response (base : String) (responseHeaders : List (String × String)) :
    Except Error Api :=
  match login_cookie responseHeaders with
  | .error e => .error e
  | .ok c => .ok { cookie := c, url := base }

/-- Rust `Option<&str>` form fields: a present value contributes one pair,
an absent one contributes nothing. -/
def optField (name : String) (v : Option String) : List (String × String) :=
  match v with
  | none => []
  | some s => [(name, s)]

/-- api.rs `Api::new`, lines 34–41: the login request — a POST to
`/api/v2/auth/login` with the credential form and the `Referer` header. -/
def login_request (base : String) (username password : Option String) : Request :=
  { method := .post
    path := "/api/v2/auth/login"
    headers := [("Referer", base)]
    form := some (optField "username" username ++ optField "password" password) }

/-- api.rs `Api::hashes_form_data`: map each `Hash` to its string, join
with `"|"` (Rust `[&str]::join`), and store under the single key
`hashes`. -/
def Api.hashes_form_data (hashes : List Hash) : List (String × String) :=
  [("hashes", String.intercalate "|" (hashes.map (fun h => h.hash)))]

/-- queries.rs `LogRequest`. -/
structure LogRequest where
  normal : Bool
  info : Bool
  warning : Bool
  critical : Bool
  last_known_id : Nat
  deriving Repr, DecidableEq

/-- queries.rs `LogRequest::bool_to_string`. -/
def LogRequest.bool_to_string (b : Bool) : String :=
  if b then "true" else "false"

/-- queries.rs `LogRequest::to_form_data`: always serializes all four flags
plus the cursor, in insertion order. -/
def LogRequest.to_form_data (r : LogRequest) : List (String × String) :=
  [("normal", LogRequest.bool_to_string r.normal),
   ("info", LogRequest.bool_to_string r.info),
   ("warning", LogRequest.bool_to_string r.warning),
   ("critical", LogRequest.bool_to_string r.critical),
   ("last_known_id", toString r.last_known_id)]

/-- queries.rs `TorrentDownload` (serde form serialization: wire names
`upLimit`, `dlLimit`, `autoTMM`, `sequentialDownload`,
`firstLastPiecePrio`; the raw torrent bytes are kept abstract as a
string). -/
structure TorrentDownload where
  urls : Option String := none
  torrents : Option String := none
  savepath : Option String := none
  cookie : Option String := none
  category : Option String := none
  skip_checking : Option String := none
  paused : Option String := none
  root_folder : Option String := none
  rename : Option String := none
  upload_limit : Option Int := none
  download_limit : Option Int := none
  automatic_management : Option Bool := none
  sequential_download : Option String := none
  first_last_piece_prio : Option String := none
  deriving Repr, DecidableEq

/-- queries.rs `TorrentDownload` as a form body: each present optional
field contributes one key under its wire name, absent fields contribute
nothing (serde skips `None`). -/
def TorrentDownload.form_data (d : TorrentDownload) : List (String × String) :=
  optField "urls" d.urls ++
  optField "torrents" d.torrents ++
  optField "savepath" d.savepath ++
  optField "cookie" d.cookie ++
  optField "category" d.category ++
  optField "skip_checking" d.skip_checking ++
  optField "paused" d.paused ++
  optField "root_folder" d.root_folder ++
  optField "rename" d.rename ++
  optField "upLimit" (d.upload_limit.map toString) ++
  optField "dlLimit" (d.download_limit.map toString) ++
  optField "autoTMM" (d.automatic_management.map LogRequest.bool_to_string) ++
  optField "sequentialDownload" d.sequential_download ++
  optField "firstLastPiecePrio" d.first_last_piece_prio

/-- api.rs `Api::application_version`: a bare GET — no `.headers(..)`, no
form body. -/
def Api.application_version_request (_a : Api) : Request :=
  { method := .get, path := "/api/v2/app/version", headers := [], form := none }

/-- api.rs `Api::api_version`: a bare GET. -/
def Api.api_version_request (_a : Api) : Request :=
  { method := .get, path := "/api/v2/app/webapiVersion", headers := [], form := none }

/-- api.rs `Api::build_info`: a bare GET. -/
def Api.build_info_request (_a : Api) : Request :=
  { method := .get, path := "/api/v2/app/buildInfo", headers := [], form := none }

/-- api.rs `Api::shutdown`: a bare GET. -/
def Api.shutdown_request (_a : Api) : Request :=
  { method := .get, path := "/api/v2/app/shutdown", headers := [], form := none }

/-- api.rs `Api::default_save_path`: a bare GET. -/
def Api.default_save_path_request (_a : Api) : Request :=
  { method := .get, path := "/api/v2/app/defaultSavePath", headers := [], form := none }

/-- api.rs `Api::get_log`: a POST with the log form attached but no
`.headers(..)` call. -/
def Api.get_log_request (_a : Api) (r : LogRequest) : Request :=
  { method := .post, path := "/api/v2/log/main", headers := [],
    form := some r.to_form_data }

/-- api.rs `Api::get_global_transfer_info`: GET with the auth headers. -/
def Api.get_global_transfer_info_request (a : Api) : Request :=
  { method := .get, path := "/api/v2/transfer/info", headers := a.auth_headers,
    form := none }

/-- api.rs `Api::get_alternate_speed_limits_state`: GET with the auth
headers. -/
def Api.get_alternate_speed_limits_state_request (a : Api) : Request :=
  { method := .get, path := "/api/v2/transfer/speedLimitsMode",
    headers := a.auth_headers, form := none }

/-- api.rs `Api::toggle_alternative_speed_limits`: a bare GET. -/
def Api.toggle_alternative_speed_limits_request (_a : Api) : Request :=
  { method := .get, path := "/api/v2/transfer/toggleSpeedLimitsMode",
    headers := [], form := none }

/-- api.rs `Api::get_torrent_list`: GET with the auth headers. -/
def Api.get_torrent_list_request (a : Api) : Request :=
  { method := .get, path := "/api/v2/torrents/info", headers := a.auth_headers,
    form := none }

/-- api.rs `Api::add_new_torrent`: POST with the serialized
`TorrentDownload` form and the auth headers. -/
def Api.add_new_torrent_request (a : Api) (d : TorrentDownload) : Request :=
  { method := .post, path := "/api/v2/torrents/add", headers := a.auth_headers,
    form := some d.form_data }

/-- api.rs `Api::get_all_categories`: GET with the auth headers. -/
def Api.get_all_categories_request (a : Api) : Request :=
  { method := .get, path := "/api/v2/torrents/categories",
    headers := a.auth_headers, form := none }

/-- api.rs `Api::add_category`: POST with auth headers and the
`category`/`savePath` form. -/
def Api.add_category_request (a : Api) (name path : String) : Request :=
  { method := .post, path := "/api/v2/torrents/createCategory",
    headers := a.auth_headers,
    form := some [("category", name), ("savePath", path)] }

/-- api.rs `Api::bottom_prio`: POST with auth headers and the batch hashes
form. -/
def Api.bottom_prio_request (a : Api) (hashes : List Hash) : Request :=
  { method := .post, path := "/api/v2/torrents/bottomPrio",
    headers := a.auth_headers, form := some (Api.hashes_form_data hashes) }

/-- api.rs `Api::top_prio`: POST with auth headers and the batch hashes
form. -/
def Api.top_prio_request (a : Api) (hashes : List Hash) : Request :=
  { method := .post, path := "/api/v2/torrents/topPrio",
    headers := a.auth_headers, form := some (Api.hashes_form_data hashes) }

/-- traits.rs `impl Category<Api> for Torrent`, `set_category`: the
`hashes`/`category` form map is built but the request chain is
`post(..).headers(..)` with no `.form(..)` call, so the request goes out
with no body. -/
def Api.set_category_request (a : Api) (_t : Torrent) (_category : String) : Request :=
  { method := .post, path := "/api/v2/torrents/setCategory",
    headers := a.auth_headers, form := none }

/-- traits.rs `impl TorrentData<Api> for Hash`, `properties`: POST with
auth headers and the singular `hash` field. -/
def Api.properties_request (a : Api) (h : Hash) : Request :=
  { method := .post, path := "/api/v2/torrents/properties",
    headers := a.auth_headers, form := some [("hash", h.hash)] }

/-- traits.rs `impl TorrentData<Api> for Hash`, `trackers`: POST with auth
headers and the singular `hash` field. -/
def Api.trackers_request (a : Api) (h : Hash) : Request :=
  { method := .post, path := "/api/v2/torrents/trackers",
    headers := a.auth_headers, form := some [("hash", h.hash)] }

/-- traits.rs `impl TorrentData<Api> for Hash`, `contents`: POST with auth
headers and the singular `hash` field. -/
def Api.contents_request (a : Api) (h : Hash) : Request :=
  { method := .post, path := "/api/v2/torrents/files",
    headers := a.auth_headers, form := some [("hash", h.hash)] }

/-- traits.rs `impl Resume<Api> for Hash`: POST with auth headers and the
single identifier under the `hashes` key. -/
def Api.resume_hash_request (a : Api) (h : Hash) : Request :=
  { method := .post, path := "/api/v2/torrents/resume",
    headers := a.auth_headers, form := some [("hashes", h.hash)] }

/-- traits.rs `impl Resume<Api> for Vec<Hash>`: POST with auth headers and
the batch hashes form. -/
def Api.resume_vec_request (a : Api) (hashes : List Hash) : Request :=
  { method := .post, path := "/api/v2/torrents/resume",
    headers := a.auth_headers, form := some (Api.hashes_form_data hashes) }

/-- traits.rs `impl Pause<Api> for Hash`: POST with auth headers and the
single identifier under the singular `hash` key (unlike the `Vec` batch
form, which uses `hashes`). -/
def Api.pause_hash_request (a : Api) (h : Hash) : Request :=
  { method := .post, path := "/api/v2/torrents/pause",
    headers := a.auth_headers, form := some [("hash", h.hash)] }

/-- traits.rs `impl Pause<Api> for Torrent`: delegates to the `Hash`
implementation on `self.hash`. -/
def Api.pause_torrent_request (a : Api) (t : Torrent) : Request :=
  Api.pause_hash_request a t.hash

/-- traits.rs `impl Pause<Api> for Vec<Hash>`: POST with auth headers and
the batch hashes form. -/
def Api.pause_vec_request (a : Api) (hashes : List Hash) : Request :=
  { method := .post, path := "/api/v2/torrents/pause",
    headers := a.auth_headers, form := some (Api.hashes_form_data hashes) }

/-- traits.rs `impl Resume<Api> for Torrent`: delegates to the `Hash`
implementation on `self.hash`. -/
def Api.resume_torrent_request (a : Api) (t : Torrent) : Request :=
  Api.resume_hash_request a t.hash

/-- traits.rs `impl Tags<Api> for Hash`, `add_tag`: POST with auth headers,
the identifier under `hashes`, and the tag list joined with `","`. -/
def Api.add_tag_request (a : Api) (h : Hash) (tags : List String) : Request :=
  { method := .post, path := "/api/v2/torrents/addTags",
    headers := a.auth_headers,
    form := some [("hashes", h.hash), ("tags", String.intercalate "," tags)] }

/-- traits.rs `impl Recheck<Api> for Hash`: POST with auth headers and the
identifier under `hashes`. -/
def Api.recheck_request (a : Api) (h : Hash) : Request :=
  { method := .post, path := "/api/v2/torrents/recheck",
    headers := a.auth_headers, form := some [("hashes", h.hash)] }

/-- reqwest `Response::error_for_status` followed by `Error::from`:
modelled from reqwest's documented behaviour — the call errors exactly for
client-error (4xx) and server-error (5xx) status codes, carrying the
status. -/
def error_for_status (status : Nat) : Except Error Unit :=
  if 400 ≤ status ∧ status ≤ 599 then .error (.HttpStatus status) else .ok ()

/-- traits.rs `Pause` impls (both `Hash` and `Vec<Hash>`): the result is
`error_for_status` on the response. -/
def Api.pause_outcome (status : Nat) : Except Error Unit :=
  error_for_status status

/-- traits.rs `Resume` impls: the result is `error_for_status` on the
response. -/
def Api.resume_outcome (status : Nat) : Except Error Unit :=
  error_for_status status

/-- api.rs `Api::toggle_alternative_speed_limits`: the result is
`error_for_status` on the response. -/
def Api.toggle_outcome (status : Nat) : Except Error Unit :=
  error_for_status status

/-- api.rs `Api::add_new_torrent`: the result is `error_for_status` on the
response. -/
def Api.add_new_torrent_outcome (status : Nat) : Except Error Unit :=
  error_for_status status

/-- traits.rs `Tags` impl, `add_tag`: the result is `error_for_status` on
the response. -/
def Api.add_tag_outcome (status : Nat) : Except Error Unit :=
  error_for_status status

/-- api.rs `Api::shutdown`: the response is bound to `_response` and
dropped — the call returns `Ok(())` whatever the status. -/
def Api.shutdown_outcome (_status : Nat) : Except Error Unit :=
  .ok ()

/-- traits.rs `Recheck<Api> for Hash`: the response is bound to
`_response` and dropped — the call returns `Ok(())` whatever the status. -/
def Api.recheck_outcome (_status : Nat) : Except Error Unit :=
  .ok ()

/-- api.rs `Api::top_prio`: the body is read and discarded — the call
returns `Ok(())` whatever the status. -/
def Api.top_prio_outcome (_status : Nat) : Except Error Unit :=
  .ok ()

/-- api.rs `Api::bottom_prio`: the body is read and discarded — the call
returns `Ok(())` whatever the status. -/
def Api.bottom_prio_outcome (_status : Nat) : Except Error Unit :=
  .ok ()

/-- traits.rs `Category<Api> for Torrent`, `set_category`: the body is
read and discarded — the call returns `Ok(())` whatever the status. -/
def Api.set_category_outcome (_status : Nat) : Except Error Unit :=
  .ok ()

/-- api.rs `Api::add_category`: the body is read and discarded — the call
returns `Ok(())` whatever the status. -/
def Api.add_category_outcome (_status : Nat) : Except Error Unit :=
  .ok ()

/-- api.rs `Api::get_alternate_speed_limits_state`, lines 157–163: body
bytes `"1"` decode to `Enabled`, `"0"` to `Disabled`, anything else is
`BadResponse`. -/
def Api.alt_speed_limits_decode (body : String) : Except Error AlternateLimits :=
  if body = "1" then .ok .Enabled
  else if body = "0" then .ok .Disabled
  else .error .BadResponse

/-- queries.rs `TorrentFilter` with its serde wire names. -/
inductive TorrentFilter where
  | All
  | Downloading
  | Seeding
  | Completed
  | Paused
  | Active
  | Inactive
  | Resumed
  | Stalled
  | StalledUploading
  | StalledDownloading
  | Errored
  deriving Repr, DecidableEq

/-- The serde rename of each `TorrentFilter` variant. -/
def TorrentFilter.wire_name : TorrentFilter → String
  | .All => "all"
  | .Downloading => "downloading"
  | .Seeding => "seeding"
  | .Completed => "completed"
  | .Paused => "paused"
  | .Active => "active"
  | .Inactive => "inactive"
  | .Resumed => "resumed"
  | .Stalled => "stalled"
  | .StalledUploading => "stalled_uploading"
  | .StalledDownloading => "stalled_downloading"
  | .Errored => "errored"

/-- queries.rs `TorrentRequest`. -/
structure TorrentRequest where
  filter : Option TorrentFilter := none
  category : Option String := none
  tag : Option String := none
  sort : Option String := none
  reverse : Option Bool := none
  limit : Option Nat := none
  offset : Option Int := none
  hashes : List Hash := []
  deriving Repr, DecidableEq

/-- queries.rs `TorrentRequest::send`, form construction: each present
optional field contributes one key (`filter` goes through
`serde_json::to_string`, which wraps the wire name in JSON quotes;
`reverse` through `serde_json::to_string` on a bool, which does not);
`hashes` contributes a pipe-joined key only when non-empty. -/
def TorrentRequest.form_data (r : TorrentRequest) : List (String × String) :=
  optField "filter" (r.filter.map (fun f => "\"" ++ f.wire_name ++ "\"")) ++
  optField "category" r.category ++
  optField "tag" r.tag ++
  optField "sort" r.sort ++
  optField "reverse" (r.reverse.map LogRequest.bool_to_string) ++
  optField "limit" (r.limit.map toString) ++
  optField "offset" (r.offset.map toString) ++
  (if r.hashes.isEmpty then []
   else [("hashes", String.intercalate "|" (r.hashes.map (fun h => h.hash)))])

/-- queries.rs `TorrentRequest::send`: POST with auth headers and the
filter form. -/
def Api.torrent_request_send (a : Api) (r : TorrentRequest) : Request :=
  { method := .post, path := "/api/v2/torrents/info",
    headers := a.auth_headers, form := some r.form_data }

/-- The batch identifier list as the spec words it: h1|h2|…|hn in caller
order (used to compare the source's `join` against the spec's reading). -/
def spec_pipe_join : List String → String
  | [] => ""
  | [h] => h
  | h :: h2 :: rest => h ++ "|" ++ spec_pipe_join (h2 :: rest)

/-- A concrete session fixture used by counterexample statements. -/
def api0 : Api :=
  { cookie := "SID=abc123", url := "http://localhost/" }

/-- A concrete torrent fixture (identifier `"aaa"`) used by concrete
statements; every other attribute is an arbitrary snapshot value. -/
def torrent0 : Torrent :=
  { added_on := 0, amount_left := 0, auto_tmm := false, category := ""
    completed := 0, completion_on := 0, dl_limit := 0, dlspeed := 0
    downloaded := 0, downloaded_session := 0, eta := 0, f_l_piece_prio := none
    force_start := false, hash := { hash := "aaa" }, last_activity := 0
    magnet_uri := "", max_ratio := 0, max_seeding_time := 0, name := "t0"
    num_complete := 0, num_incomplete := 0, num_leechs := 0, num_seeds := 0
    priority := 0, progress := 0, ratio := 0, ratio_limit := 0, save_path := ""
    seeding_time_limit := 0, seen_complete := 0, seq_dl := false, size := 0
    state := .Downloading, super_seeding := false, tags := "", time_active := 0
    total_size := 0, tracker := "", up_limit := 0, uploaded := 0
    uploaded_session := 0, upspeed := 0 }

/-- The tail of a pipe-join: "|h" for each remaining element. -/
def pjtail : List String → String
  | [] => ""
  | h :: rest => "|" ++ h ++ pjtail rest

theorem intercalate_go_pjtail (as : List String) :
    ∀ acc : String, String.intercalate.go acc "|" as = acc ++ pjtail as := by
  induction as with
  | nil => intro acc; simp [String.intercalate.go, pjtail]
  | cons a as ih =>
    intro acc
    simp only [String.intercalate.go, pjtail, ih]
    simp [String.append_assoc]

theorem spec_pipe_join_eq_pjtail (a : String) (as : List String) :
    spec_pipe_join (a :: as) = a ++ pjtail as := by
  induction as generalizing a with
  | nil => simp [spec_pipe_join, pjtail]
  | cons b bs ih =>
    simp only [spec_pipe_join, pjtail, ih b]
    simp [String.append_assoc]

theorem intercalate_pipe_eq_spec_pipe_join (l : List String) :
    String.intercalate "|" l = spec_pipe_join l := by
  cases l with
  | nil => rfl
  | cons a as =>
    simp only [String.intercalate, intercalate_go_pjtail, spec_pipe_join_eq_pjtail]

theorem findSemi_append (pre post : List Char) (hpre : ';' ∉ pre) :
    findSemi (pre ++ ';' :: post) = some pre.length := by
  induction pre with
  | nil => simp [findSemi]
  | cons c cs ih =>
    have hc : c ≠ ';' := fun h => hpre (h ▸ List.mem_cons_self c cs)
    have hcs : ';' ∉ cs := fun h => hpre (List.mem_cons_of_mem c h)
    simp [findSemi, hc, ih hcs]

/-- C2 (corrected): a login response whose first `set-cookie` value splits
as `pre ++ ";" ++ post`, with no `';'` in `pre`, makes `Api::new` succeed
with the captured cookie equal to `pre` — the `name=value` prefix strictly
before the first `';'`.  (As stated the claim is false: a well-formed
cookie with no `';'` at all makes construction fail, see the
counterexample.) -/
theorem C2_cookie_token_before_first_semicolon
    (base : String) (hs : List (String × String)) (v : String)
    (pre post : List Char)
    (hfind : getHeader "set-cookie" hs = some v)
    (hsplit : v.data = pre ++ ';' :: post)
    (hpre : ';' ∉ pre) :
    Api.new_from_response base hs = .ok { cookie := String.mk pre, url := base } := by
  simp only [Api.new_from_response, login_cookie, hfind, hsplit,
    findSemi_append pre post hpre, List.take_left]

/-- C2 witness: the concrete stub login response
`set-cookie: SID=abc123; Path=/` yields a session whose captured token is
`SID=abc123`. -/
theorem C2_witness :
    getHeader "set-cookie" [("set-cookie", "SID=abc123; Path=/")] =
      some "SID=abc123; Path=/" ∧
    ("SID=abc123; Path=/").data = "SID=abc123".data ++ ';' :: " Path=/".data ∧
    ';' ∉ "SID=abc123".data ∧
    Api.new_from_response "http://localhost/" [("set-cookie", "SID=abc123; Path=/")] =
      .ok { cookie := String.mk "SID=abc123".data, url := "http://localhost/" } :=
  ⟨by decide, by decide, by decide,
    C2_cookie_token_before_first_semicolon "http://localhost/"
      [("set-cookie", "SID=abc123; Path=/")] "SID=abc123; Path=/"
      "SID=abc123".data " Path=/".data (by decide) (by decide) (by decide)⟩

/-- C2 counterexample: `SID=abc123` is a well-formed session cookie, but
because its `Set-Cookie` value contains no `';'`, `Api::new` fails with
`MissingCookie` instead of succeeding with token `SID=abc123`. -/
theorem C2_counterexample :
    Api.new_from_response "http://localhost/" [("set-cookie", "SID=abc123")] =
      .error Error.MissingCookie := rfl

/-- C3 (corrected): a login response with no `set-cookie` header at all
fails with `MissingHeaders`, not `MissingCookie` — `Api::new` never
inspects the cookie's name, so "lacking a header naming the session
cookie" is not the condition the code tests. -/
theorem C3_no_set_cookie_gives_missing_headers
    (base : String) (hs : List (String × String))
    (hnone : getHeader "set-cookie" hs = none) :
    Api.new_from_response base hs = .error Error.MissingHeaders := by
  simp only [Api.new_from_response, login_cookie, hnone]

/-- C3 witness: a concrete cookie-free login response. -/
theorem C3_witness :
    getHeader "set-cookie" [("content-type", "text/html")] = none ∧
    Api.new_from_response "http://localhost/" [("content-type", "text/html")] =
      .error Error.MissingHeaders :=
  ⟨by decide,
    C3_no_set_cookie_gives_missing_headers "http://localhost/"
      [("content-type", "text/html")] (by decide)⟩

/-- C3 counterexample: a login response whose only `Set-Cookie` header
names a different cookie (`other`, not the session cookie `SID`) does not
fail at all — construction succeeds and captures `other=1`; and a response
lacking `Set-Cookie` entirely fails with `MissingHeaders`, not
`MissingCookie`. -/
theorem C3_counterexample :
    Api.new_from_response "http://localhost/" [("set-cookie", "other=1; Path=/")] =
      .ok { cookie := "other=1", url := "http://localhost/" } ∧
    Api.new_from_response "http://localhost/" [] = .error Error.MissingHeaders :=
  ⟨rfl, rfl⟩

/-- C4 (confirmed): for a non-empty identifier list the batch form maps
`hashes` to exactly `h1|h2|…|hn` — the elements in caller order joined
with `|`, no sorting, no de-duplication (`spec_pipe_join` is the spec's
wording of the join, proved equal to the code's `join("|")`). -/
theorem C4_hashes_joined_pipe_in_order
    (hashes : List Hash) (_hne : hashes ≠ []) :
    List.lookup "hashes" (Api.hashes_form_data hashes) =
      some (spec_pipe_join (hashes.map (fun h => h.hash))) := by
  simp only [Api.hashes_form_data, intercalate_pipe_eq_spec_pipe_join]
  rfl

/-- C4 witness: two identifiers in caller order produce `aaa|bbb`. -/
theorem C4_witness :
    ([⟨"aaa"⟩, ⟨"bbb"⟩] : List Hash) ≠ [] ∧
    List.lookup "hashes" (Api.hashes_form_data [⟨"aaa"⟩, ⟨"bbb"⟩]) =
      some (spec_pipe_join ["aaa", "bbb"]) :=
  ⟨by decide, C4_hashes_joined_pipe_in_order [⟨"aaa"⟩, ⟨"bbb"⟩] (by decide)⟩

/-- C8 (confirmed): the alt-speed-limits state decode maps body `"1"` to
`Enabled`, `"0"` to `Disabled`, and every other body to `BadResponse`. -/
theorem C8_alt_speed_decode (s : String) (h1 : s ≠ "1") (h0 : s ≠ "0") :
    Api.alt_speed_limits_decode "1" = .ok AlternateLimits.Enabled ∧
    Api.alt_speed_limits_decode "0" = .ok AlternateLimits.Disabled ∧
    Api.alt_speed_limits_decode s = .error Error.BadResponse := by
  refine ⟨rfl, rfl, ?_⟩
  simp [Api.alt_speed_limits_decode, h1, h0]

/-- C8 witness: the body `"2"` from the claim's own example list. -/
theorem C8_witness :
    ("2" : String) ≠ "1" ∧ ("2" : String) ≠ "0" ∧
    (Api.alt_speed_limits_decode "1" = .ok AlternateLimits.Enabled ∧
     Api.alt_speed_limits_decode "0" = .ok AlternateLimits.Disabled ∧
     Api.alt_speed_limits_decode "2" = .error Error.BadResponse) :=
  ⟨by decide, by decide, C8_alt_speed_decode "2" (by decide) (by decide)⟩

/-- C10 (confirmed): the batch form builder inserts the `hashes` key even
for the empty list, mapped to the empty string, and the empty-vector
pause/resume requests therefore send `hashes=` rather than omitting the
field. -/
theorem C10_empty_hashes_field_present (a : Api) :
    Api.hashes_form_data [] = [("hashes", "")] ∧
    (Api.pause_vec_request a []).form = some [("hashes", "")] ∧
    (Api.resume_vec_request a []).form = some [("hashes", "")] :=
  ⟨rfl, rfl, rfl⟩

/-- C1 counterexample: the application-version and shutdown operations —
both named by the claim — attach no headers at all, so their requests
carry neither the captured cookie (`SID=abc123` here) nor a Referer. -/
theorem C1_counterexample :
    (Api.application_version_request api0).headers = [] ∧
    (Api.shutdown_request api0).headers = [] ∧
    api0.cookie = "SID=abc123" ∧ api0.url = "http://localhost/" :=
  ⟨rfl, rfl, rfl, rfl⟩

/-- C1 (corrected): exactly the operations that call `Api::headers` carry
the captured cookie and a `Referer` equal to the base address — transfer
info, speed-limits state, torrent listing (plain and filtered),
add-torrent, the category and tag operations, priority changes, the
per-hash reads, pause/resume/recheck and set-category.  The
application-version, API-version, build-info, shutdown, default-save-path,
log-fetch and speed-limits-toggle requests attach no headers (see the
counterexample). -/
theorem C1_auth_ops_carry_cookie_and_referer
    (a : Api) (h : Hash) (t : Torrent) (hs : List Hash) (d : TorrentDownload)
    (name path cat : String) (tags : List String) (tr : TorrentRequest) :
    (("cookie", a.cookie) ∈ (Api.get_global_transfer_info_request a).headers ∧
     ("Referer", a.url) ∈ (Api.get_global_transfer_info_request a).headers) ∧
    (("cookie", a.cookie) ∈ (Api.get_alternate_speed_limits_state_request a).headers ∧
     ("Referer", a.url) ∈ (Api.get_alternate_speed_limits_state_request a).headers) ∧
    (("cookie", a.cookie) ∈ (Api.get_torrent_list_request a).headers ∧
     ("Referer", a.url) ∈ (Api.get_torrent_list_request a).headers) ∧
    (("cookie", a.cookie) ∈ (Api.add_new_torrent_request a d).headers ∧
     ("Referer", a.url) ∈ (Api.add_new_torrent_request a d).headers) ∧
    (("cookie", a.cookie) ∈ (Api.get_all_categories_request a).headers ∧
     ("Referer", a.url) ∈ (Api.get_all_categories_request a).headers) ∧
    (("cookie", a.cookie) ∈ (Api.add_category_request a name path).headers ∧
     ("Referer", a.url) ∈ (Api.add_category_request a name path).headers) ∧
    (("cookie", a.cookie) ∈ (Api.bottom_prio_request a hs).headers ∧
     ("Referer", a.url) ∈ (Api.bottom_prio_request a hs).headers) ∧
    (("cookie", a.cookie) ∈ (Api.top_prio_request a hs).headers ∧
     ("Referer", a.url) ∈ (Api.top_prio_request a hs).headers) ∧
    (("cookie", a.cookie) ∈ (Api.set_category_request a t cat).headers ∧
     ("Referer", a.url) ∈ (Api.set_category_request a t cat).headers) ∧
    (("cookie", a.cookie) ∈ (Api.properties_request a h).headers ∧
     ("Referer", a.url) ∈ (Api.properties_request a h).headers) ∧
    (("cookie", a.cookie) ∈ (Api.trackers_request a h).headers ∧
     ("Referer", a.url) ∈ (Api.trackers_request a h).headers) ∧
    (("cookie", a.cookie) ∈ (Api.contents_request a h).headers ∧
     ("Referer", a.url) ∈ (Api.contents_request a h).headers) ∧
    (("cookie", a.cookie) ∈ (Api.resume_hash_request a h).headers ∧
     ("Referer", a.url) ∈ (Api.resume_hash_request a h).headers) ∧
    (("cookie", a.cookie) ∈ (Api.resume_vec_request a hs).headers ∧
     ("Referer", a.url) ∈ (Api.resume_vec_request a hs).headers) ∧
    (("cookie", a.cookie) ∈ (Api.resume_torrent_request a t).headers ∧
     ("Referer", a.url) ∈ (Api.resume_torrent_request a t).headers) ∧
    (("cookie", a.cookie) ∈ (Api.pause_hash_request a h).headers ∧
     ("Referer", a.url) ∈ (Api.pause_hash_request a h).headers) ∧
    (("cookie", a.cookie) ∈ (Api.pause_vec_request a hs).headers ∧
     ("Referer", a.url) ∈ (Api.pause_vec_request a hs).headers) ∧
    (("cookie", a.cookie) ∈ (Api.pause_torrent_request a t).headers ∧
     ("Referer", a.url) ∈ (Api.pause_torrent_request a t).headers) ∧
    (("cookie", a.cookie) ∈ (Api.add_tag_request a h tags).headers ∧
     ("Referer", a.url) ∈ (Api.add_tag_request a h tags).headers) ∧
    (("cookie", a.cookie) ∈ (Api.recheck_request a h).headers ∧
     ("Referer", a.url) ∈ (Api.recheck_request a h).headers) ∧
    (("cookie", a.cookie) ∈ (Api.torrent_request_send a tr).headers ∧
     ("Referer", a.url) ∈ (Api.torrent_request_send a tr).headers) := by
  have hc : ("cookie", a.cookie) ∈ a.auth_headers ∧
      ("Referer", a.url) ∈ a.auth_headers := by
    simp [Api.auth_headers]
  exact ⟨hc, hc, hc, hc, hc, hc, hc, hc, hc, hc, hc, hc, hc, hc, hc, hc, hc,
    hc, hc, hc, hc⟩

/-- C5 counterexample: a pause invoked on a single identifier (and hence
on a single torrent record, which delegates to it) sends the singular
`hash` field, not `hashes` — the form sent for identifier `aaa` is
`hash=aaa` and contains no `hashes` key. -/
theorem C5_counterexample :
    (Api.pause_hash_request api0 { hash := "aaa" }).form = some [("hash", "aaa")] ∧
    List.lookup "hashes" (((Api.pause_hash_request api0 { hash := "aaa" }).form).getD []) =
      none ∧
    (Api.pause_torrent_request api0 torrent0).form = some [("hash", "aaa")] :=
  ⟨rfl, rfl, rfl⟩

/-- C5 (corrected): the batch (vector) pause of identifiers `aaa`, `bbb`
sends form field `hashes=aaa|bbb` to `/api/v2/torrents/pause`; a 200
response succeeds and a 404 response fails with the HTTP-status error
carrying 404; the single-identifier and single-torrent-record pause
implementations instead send the singular field `hash` with the bare
identifier. -/
theorem C5_pause_forms_and_status (a : Api) :
    (Api.pause_vec_request a [⟨"aaa"⟩, ⟨"bbb"⟩]).path = "/api/v2/torrents/pause" ∧
    (Api.pause_vec_request a [⟨"aaa"⟩, ⟨"bbb"⟩]).form = some [("hashes", "aaa|bbb")] ∧
    Api.pause_outcome 200 = .ok () ∧
    Api.pause_outcome 404 = .error (Error.HttpStatus 404) ∧
    (∀ h : Hash, (Api.pause_hash_request a h).form = some [("hash", h.hash)]) ∧
    (∀ t : Torrent, (Api.pause_torrent_request a t).form = some [("hash", t.hash.hash)]) := by
  refine ⟨rfl, rfl, rfl, rfl, fun h => rfl, fun t => rfl⟩

/-- C6 counterexample: a re-check answered with status 404 succeeds (the
response is dropped unexamined), and a pause answered with status 302 —
outside the 2xx success range — also succeeds; both contradict "succeeds
iff 2xx, otherwise HTTP-status error". -/
theorem C6_counterexample :
    Api.recheck_outcome 404 = .ok () ∧ Api.pause_outcome 302 = .ok () :=
  ⟨rfl, rfl⟩

/-- C6 (corrected): pause, resume, toggle-limits, add-torrent and add-tags
run through `error_for_status`, so they fail with the HTTP-status error
exactly on 4xx/5xx codes and succeed on everything else (including 1xx and
3xx, not only 2xx); shutdown, re-check, the priority changes, set-category
and category creation ignore the status entirely and always succeed. -/
theorem C6_status_only_outcomes (s t : Nat)
    (hs4 : 400 ≤ s ∧ s ≤ 599) (ht : t < 400 ∨ 600 ≤ t) :
    Api.pause_outcome s = .error (Error.HttpStatus s) ∧
    Api.resume_outcome s = .error (Error.HttpStatus s) ∧
    Api.toggle_outcome s = .error (Error.HttpStatus s) ∧
    Api.add_new_torrent_outcome s = .error (Error.HttpStatus s) ∧
    Api.add_tag_outcome s = .error (Error.HttpStatus s) ∧
    Api.pause_outcome t = .ok () ∧
    Api.resume_outcome t = .ok () ∧
    Api.toggle_outcome t = .ok () ∧
    Api.add_new_torrent_outcome t = .ok () ∧
    Api.add_tag_outcome t = .ok () ∧
    Api.shutdown_outcome s = .ok () ∧
    Api.recheck_outcome s = .ok () ∧
    Api.top_prio_outcome s = .ok () ∧
    Api.bottom_prio_outcome s = .ok () ∧
    Api.set_category_outcome s = .ok () ∧
    Api.add_category_outcome s = .ok () := by
  have herr : error_for_status s = .error (Error.HttpStatus s) := by
    unfold error_for_status
    rw [if_pos hs4]
  have hok : error_for_status t = .ok () := by
    have hneg : ¬(400 ≤ t ∧ t ≤ 599) := by omega
    unfold error_for_status
    rw [if_neg hneg]
  exact ⟨herr, herr, herr, herr, herr, hok, hok, hok, hok, hok, rfl, rfl, rfl,
    rfl, rfl, rfl⟩

/-- C6 witness: status 404 fails the error_for_status group and status 200
succeeds; the fire-and-forget group succeeds even at 404. -/
theorem C6_witness :
    (400 ≤ 404 ∧ 404 ≤ 599) ∧ (200 < 400 ∨ 600 ≤ 200) ∧
    (Api.pause_outcome 404 = .error (Error.HttpStatus 404) ∧
     Api.resume_outcome 404 = .error (Error.HttpStatus 404) ∧
     Api.toggle_outcome 404 = .error (Error.HttpStatus 404) ∧
     Api.add_new_torrent_outcome 404 = .error (Error.HttpStatus 404) ∧
     Api.add_tag_outcome 404 = .error (Error.HttpStatus 404) ∧
     Api.pause_outcome 200 = .ok () ∧
     Api.resume_outcome 200 = .ok () ∧
     Api.toggle_outcome 200 = .ok () ∧
     Api.add_new_torrent_outcome 200 = .ok () ∧
     Api.add_tag_outcome 200 = .ok () ∧
     Api.shutdown_outcome 404 = .ok () ∧
     Api.recheck_outcome 404 = .ok () ∧
     Api.top_prio_outcome 404 = .ok () ∧
     Api.bottom_prio_outcome 404 = .ok () ∧
     Api.set_category_outcome 404 = .ok () ∧
     Api.add_category_outcome 404 = .ok ()) :=
  ⟨by decide, by decide, C6_status_only_outcomes 404 200 (by decide) (by decide)⟩

/-- C7 (code bug): `set_category` builds the `hashes`/`category` form map
but the request chain never calls `.form(..)`, so the POST to
`/api/v2/torrents/setCategory` goes out with no body at all — here
evaluated at the failing input: session `api0`, torrent with identifier
`aaa`, category `movies`. -/
theorem C7_set_category_sends_no_form :
    (Api.set_category_request api0 torrent0 "movies").form = none ∧
    (Api.set_category_request api0 torrent0 "movies").path =
      "/api/v2/torrents/setCategory" ∧
    (Api.set_category_request api0 torrent0 "movies").method = Method.post :=
  ⟨rfl, rfl, rfl⟩

/-- C9 counterexample: the application-version operation issues a GET with
no form body, so not every request of the client is a form-encoded POST. -/
theorem C9_counterexample :
    (Api.application_version_request api0).method = Method.get ∧
    (Api.application_version_request api0).form = none :=
  ⟨rfl, rfl⟩

/-- C9 (corrected): the login, log fetch, filtered torrent listing,
add-torrent, category creation, priority changes and all per-torrent trait
operations are POSTs (all but set-category with a form body, set-category
with none); the application/API version, build info, default save path,
transfer info, speed-limits state and toggle, plain torrent listing and
categories reads, and shutdown, are GETs with no body. -/
theorem C9_request_methods
    (a : Api) (base : String) (u p : Option String) (lr : LogRequest)
    (d : TorrentDownload) (name path cat : String) (hs : List Hash) (h : Hash)
    (t : Torrent) (tags : List String) (tr : TorrentRequest) :
    ((login_request base u p).method = Method.post ∧
     ((login_request base u p).form).isSome = true) ∧
    ((Api.get_log_request a lr).method = Method.post ∧
     ((Api.get_log_request a lr).form).isSome = true) ∧
    ((Api.add_new_torrent_request a d).method = Method.post ∧
     ((Api.add_new_torrent_request a d).form).isSome = true) ∧
    ((Api.add_category_request a name path).method = Method.post ∧
     ((Api.add_category_request a name path).form).isSome = true) ∧
    ((Api.bottom_prio_request a hs).method = Method.post ∧
     ((Api.bottom_prio_request a hs).form).isSome = true) ∧
    ((Api.top_prio_request a hs).method = Method.post ∧
     ((Api.top_prio_request a hs).form).isSome = true) ∧
    ((Api.torrent_request_send a tr).method = Method.post ∧
     ((Api.torrent_request_send a tr).form).isSome = true) ∧
    ((Api.properties_request a h).method = Method.post ∧
     ((Api.properties_request a h).form).isSome = true) ∧
    ((Api.trackers_request a h).method = Method.post ∧
     ((Api.trackers_request a h).form).isSome = true) ∧
    ((Api.contents_request a h).method = Method.post ∧
     ((Api.contents_request a h).form).isSome = true) ∧
    ((Api.resume_hash_request a h).method = Method.post ∧
     ((Api.resume_hash_request a h).form).isSome = true) ∧
    ((Api.resume_vec_request a hs).method = Method.post ∧
     ((Api.resume_vec_request a hs).form).isSome = true) ∧
    ((Api.resume_torrent_request a t).method = Method.post ∧
     ((Api.resume_torrent_request a t).form).isSome = true) ∧
    ((Api.pause_hash_request a h).method = Method.post ∧
     ((Api.pause_hash_request a h).form).isSome = true) ∧
    ((Api.pause_vec_request a hs).method = Method.post ∧
     ((Api.pause_vec_request a hs).form).isSome = true) ∧
    ((Api.pause_torrent_request a t).method = Method.post ∧
     ((Api.pause_torrent_request a t).form).isSome = true) ∧
    ((Api.add_tag_request a h tags).method = Method.post ∧
     ((Api.add_tag_request a h tags).form).isSome = true) ∧
    ((Api.recheck_request a h).method = Method.post ∧
     ((Api.recheck_request a h).form).isSome = true) ∧
    ((Api.set_category_request a t cat).method = Method.post ∧
     (Api.set_category_request a t cat).form = none) ∧
    ((Api.application_version_request a).method = Method.get ∧
     (Api.application_version_request a).form = none) ∧
    ((Api.api_version_request a).method = Method.get ∧
     (Api.api_version_request a).form = none) ∧
    ((Api.build_info_request a).method = Method.get ∧
     (Api.build_info_request a).form = none) ∧
    ((Api.shutdown_request a).method = Method.get ∧
     (Api.shutdown_request a).form = none) ∧
    ((Api.default_save_path_request a).method = Method.get ∧
     (Api.default_save_path_request a).form = none) ∧
    ((Api.get_global_transfer_info_request a).method = Method.get ∧
     (Api.get_global_transfer_info_request a).form = none) ∧
    ((Api.get_alternate_speed_limits_state_request a).method = Method.get ∧
     (Api.get_alternate_speed_limits_state_request a).form = none) ∧
    ((Api.toggle_alternative_speed_limits_request a).method = Method.get ∧
     (Api.toggle_alternative_speed_limits_request a).form = none) ∧
    ((Api.get_torrent_list_request a).method = Method.get ∧
     (Api.get_torrent_list_request a).form = none) ∧
    ((Api.get_all_categories_request a).method = Method.get ∧
     (Api.get_all_categories_request a).form = none) := by
  refine ⟨⟨rfl, rfl⟩, ⟨rfl, rfl⟩, ⟨rfl, rfl⟩, ⟨rfl, rfl⟩, ⟨rfl, rfl⟩,
    ⟨rfl, rfl⟩, ⟨rfl, rfl⟩, ⟨rfl, rfl⟩, ⟨rfl, rfl⟩, ⟨rfl, rfl⟩, ⟨rfl, rfl⟩,
    ⟨rfl, rfl⟩, ⟨rfl, rfl⟩, ⟨rfl, rfl⟩, ⟨rfl, rfl⟩, ⟨rfl, rfl⟩, ⟨rfl, rfl⟩,
    ⟨rfl, rfl⟩, ⟨rfl, rfl⟩, ⟨rfl, rfl⟩, ⟨rfl, rfl⟩, ⟨rfl, rfl⟩, ⟨rfl, rfl⟩,
    ⟨rfl, rfl⟩, ⟨rfl, rfl⟩, ⟨rfl, rfl⟩, ⟨rfl, rfl⟩, ⟨rfl, rfl⟩, ⟨rfl, rfl⟩⟩

end QbApi
